import Mathlib

/-!
Verification of `src/fetch_remote_tag/remote-tag-fetch.py`.

The script checks that the external tool `skopeo` is installed, loads
`config.yaml`, and for every configured (registry, image) pair invokes
`skopeo list-tags`, parses the YAML response, sorts the `Tags` list with
`sorted(tags, key=parse_version, reverse=True)` and prints the first
`max` entries.

The embedding below models:
  - `parse_version` (line 11-13): splitting a tag on digit runs
    (`re.split` with a capturing group keeps the digit groups, so the
    result alternates non-digit parts, possibly empty at the ends, with
    digit runs) and turning each all-digit part into an integer;
  - Python tuple comparison on the resulting keys, where comparing an
    integer with a string raises `TypeError` (modelled as `none`);
  - `sorted(..., key=parse_version, reverse=True)` as a stable
    insertion sort, descending by key, with error propagation;
  - `fetch_tags`, the nested loops of `main`, and the two fatal
    preconditions, as a function from an abstract environment (tool
    presence, config-load result, per-pair tool responses) to the trace
    of observable events (console lines, tool invocations, config read)
    and the process outcome (normal exit code, or an uncaught Python
    exception, which the OS reports as a non-zero exit).

Digits are modelled as ASCII `0`-`9` (`Char.isDigit`), which is the
fragment of Python `\d` / `str.isdigit` exercised by container tags.
-/

namespace RemoteTagFetch

/-! ### Python exceptions that can escape the script -/

/-- Uncaught Python exceptions the script can raise: `KeyError` from
subscripting a dict with a missing key, `TypeError` from subscripting a
non-dict, iterating a non-iterable, slicing with a non-int, or a
mixed-type comparison, `AttributeError` from `.get` on a non-dict, and
`yaml.YAMLError` from `yaml.safe_load` on malformed tool output (only
the load of `config.yaml` catches `YAMLError`; the one in `fetch_tags`
is not caught by `except subprocess.CalledProcessError`). -/
inductive PyErr where
  | keyError (k : String)
  | typeError
  | attributeError
  | yamlError (msg : String)
deriving DecidableEq

/-! ### YAML values -/

/-- Parsed YAML values, restricted to the shapes the script can meet:
null, strings, integers, sequences and string-keyed mappings. -/
inductive YVal where
  | null
  | str (s : String)
  | int (n : Int)
  | list (xs : List YVal)
  | map (es : List (String × YVal))

/-- Python `str()` of a value, used by the f-strings of the script.
Exact for the scalar values that actually occur as registry names,
image names, tags and `max`; container reprs are abbreviated (no
theorem below interpolates a container). -/
def pyStr : YVal → String
  | .null => "None"
  | .str s => s
  | .int n => toString n
  | .list _ => "<list>"
  | .map _ => "<dict>"

/-- Python truthiness (`if not tags:`): null, empty string, zero and
empty containers are falsy. -/
def truthy : YVal → Bool
  | .null => false
  | .str s => !(s == "")
  | .int n => !(n == 0)
  | .list xs => !xs.isEmpty
  | .map es => !es.isEmpty

/-- Python subscripting `v[k]` with a string key: `KeyError` when a
dict lacks the key, `TypeError` on every non-dict. -/
def YVal.getItem (v : YVal) (k : String) : Except PyErr YVal :=
  match v with
  | .map es =>
    match es.lookup k with
    | some x => .ok x
    | none => .error (.keyError k)
  | _ => .error .typeError

/-- Python `v.get(k, d)` (line 63, `config.get('max', 3)`): only dicts
have `.get`; anything else raises `AttributeError`. -/
def YVal.get (v : YVal) (k : String) (d : YVal) : Except PyErr YVal :=
  match v with
  | .map es => .ok ((es.lookup k).getD d)
  | _ => .error .attributeError

/-- Python iteration (`for x in v`): lists yield their elements,
strings their characters, dicts their keys; null and ints are not
iterable. -/
def pyIter : YVal → Except PyErr (List YVal)
  | .list xs => .ok xs
  | .str s => .ok (s.data.map (fun c => .str (String.mk [c])))
  | .map es => .ok (es.map (fun e => .str e.1))
  | .null => .error .typeError
  | .int _ => .error .typeError

/-! ### `parse_version` (source lines 11-13) -/

/-- One element of the tuple built by `parse_version`: either a literal
string part or the integer value of an all-digit part. -/
inductive Seg where
  | str (s : List Char)
  | num (n : Nat)
deriving DecidableEq

/-- One step of `re.split` with the pattern that captures maximal digit
runs, consuming the input from the right: the accumulator is the split
of the suffix already processed, always starting with a (possibly
empty) non-digit part. A digit character either extends the digit run
that starts the suffix (when the leading non-digit part is empty) or
opens a new digit run; a non-digit character extends the leading
non-digit part. -/
def splitStep (c : Char) (acc : List (List Char)) : List (List Char) :=
  if c.isDigit then
    match acc with
    | [] :: d :: rest => [] :: (c :: d) :: rest
    | _ => [] :: [c] :: acc
  else
    match acc with
    | s :: rest => (c :: s) :: rest
    | [] => [[c]]

/-- Model of `re.split(r'(\d+)', version)` on the character list of the
tag: the alternating list of non-digit parts (possibly empty at either
end) and maximal digit runs, digit runs kept because the pattern
captures them. `re.split` on the empty string yields one empty part. -/
def splitDigits (cs : List Char) : List (List Char) :=
  cs.foldr splitStep [[]]

/-- Python `part.isdigit()`: true exactly for non-empty all-digit
strings. -/
def pyIsDigit (s : List Char) : Bool :=
  !s.isEmpty && s.all Char.isDigit

/-- Python `int(part)` on an all-digit part. -/
def natOfDigits (cs : List Char) : Nat :=
  cs.foldl (fun acc c => acc * 10 + (c.toNat - 48)) 0

/-- One tuple element: `int(part) if part.isdigit() else part`
(line 13). -/
def toSeg (part : List Char) : Seg :=
  if pyIsDigit part then .num (natOfDigits part) else .str part

/-- `parse_version` (lines 11-13): split the tag on digit runs and map
each part to an integer or a literal string. -/
def parse_version (s : String) : List Seg :=
  (splitDigits s.data).map toSeg

/-! ### Python comparison of the derived keys -/

/-- Three-way comparison of naturals, as Python compares ints. -/
def cmpNat (a b : Nat) : Ordering :=
  if a < b then .lt else if b < a then .gt else .eq

/-- Three-way comparison of characters by code point, as Python
compares one-character strings. -/
def cmpChar (a b : Char) : Ordering :=
  cmpNat a.toNat b.toNat

/-- Lexicographic comparison of strings by code point, as Python
compares `str` values. -/
def cmpStr : List Char → List Char → Ordering
  | [], [] => .eq
  | [], _ :: _ => .lt
  | _ :: _, [] => .gt
  | a :: as, b :: bs =>
    match cmpChar a b with
    | .eq => cmpStr as bs
    | o => o

/-- Comparison of two tuple elements: ints compare as numbers, strings
as text, and an int against a string raises `TypeError` (`none`). -/
def Seg.cmp : Seg → Seg → Option Ordering
  | .num a, .num b => some (cmpNat a b)
  | .str a, .str b => some (cmpStr a b)
  | _, _ => none

/-- Python tuple comparison of two keys: element-wise, the first
non-equal position decides, a proper prefix is smaller; a mixed-type
position is only reached (and only raises) when every earlier position
compared equal. -/
def cmpKey : List Seg → List Seg → Option Ordering
  | [], [] => some .eq
  | [], _ :: _ => some .lt
  | _ :: _, [] => some .gt
  | a :: as, b :: bs =>
    match Seg.cmp a b with
    | none => none
    | some .eq => cmpKey as bs
    | some o => some o

/-! ### `sorted(tags, key=parse_version, reverse=True)` (line 38)

Python's sort is stable, and `reverse=True` sorts descending while
still keeping equal-key elements in their original order. The insertion
sort below is the canonical model of that contract: an element moves
left past exactly the elements whose key is strictly smaller. -/

/-- Insert a tag into an already descending-sorted list, keeping it
after every element with a strictly greater key and before the first
element whose key is not strictly greater (so before equal keys coming
from later in the original list never happens: equal keys keep original
order). -/
def insertS (x : String) : List String → List String
  | [] => [x]
  | y :: ys =>
    match cmpKey (parse_version y) (parse_version x) with
    | some .gt => y :: insertS x ys
    | _ => x :: y :: ys

/-- Stable descending sort by `parse_version` key: the model of
`sorted(tags, key=parse_version, reverse=True)` when no comparison
raises. -/
def sortS : List String → List String
  | [] => []
  | x :: xs => insertS x (sortS xs)

/-- Insertion with Python error propagation: a mixed-type comparison
raises `TypeError`. -/
def insertE (x : String) : List String → Except PyErr (List String)
  | [] => .ok [x]
  | y :: ys =>
    match cmpKey (parse_version y) (parse_version x) with
    | none => .error .typeError
    | some o =>
      if o = .gt then
        match insertE x ys with
        | .error e => .error e
        | .ok r => .ok (y :: r)
      else .ok (x :: y :: ys)

/-- The sort with Python error propagation. -/
def sortE : List String → Except PyErr (List String)
  | [] => .ok []
  | x :: xs =>
    match sortE xs with
    | .error e => .error e
    | .ok r => insertE x r

/-- Python `v` must be a string for `parse_version` (`re.split` raises
`TypeError` on non-strings). -/
def asStr : YVal → Except PyErr String
  | .str s => .ok s
  | _ => .error .typeError

/-- Key computation over the iterated elements, in order, before any
comparison, as CPython computes all sort keys up front: the first
non-string element raises `TypeError`. -/
def asStrList : List YVal → Except PyErr (List String)
  | [] => .ok []
  | x :: xs =>
    match asStr x with
    | .error e => .error e
    | .ok s =>
      match asStrList xs with
      | .error e => .error e
      | .ok ss => .ok (s :: ss)

/-- `sorted(tags, key=parse_version, reverse=True)` applied to the raw
`Tags` value: lists sort their elements (which must be strings),
strings sort their characters, dicts sort their keys, anything else is
not iterable. -/
def sortTagsDesc (tags : YVal) : Except PyErr (List String) :=
  match tags with
  | .list xs =>
    match asStrList xs with
    | .error e => .error e
    | .ok ss => sortE ss
  | .str s => sortE (s.data.map (fun c => String.mk [c]))
  | .map es => sortE (es.map (fun e => e.1))
  | .null => .error .typeError
  | .int _ => .error .typeError

/-- Python slice `l[:m]` with an integer bound: a non-negative bound
takes that many elements, a negative bound drops that many from the
end (clamped at zero either way). -/
def pySliceTo (l : List String) (m : Int) : List String :=
  if 0 ≤ m then l.take m.toNat else l.take (l.length - (-m).toNat)

/-! ### The environment and the observable trace -/

/-- Result of one `skopeo list-tags` invocation: exit status zero with
the `yaml.safe_load` result of its stdout (which may itself be a parse
error, not caught by the `except` clause), or a non-zero exit, which
`check=True` turns into `subprocess.CalledProcessError` carrying the
stderr text. -/
inductive ToolResp where
  | success (parsed : Except String YVal)
  | failure (stderr : String)

/-- Outcome of loading `config.yaml`: the file may be absent
(`FileNotFoundError`) or malformed (`yaml.YAMLError` with a message). -/
inductive LoadErr where
  | fileNotFound
  | parseError (msg : String)
deriving DecidableEq

/-- The ambient host: whether `which skopeo` succeeds, what loading
`config.yaml` yields, and the tool response for each
(registry, image) pair. -/
structure Env where
  whichSkopeo : Bool
  config : Except LoadErr YVal
  skopeo : String → String → ToolResp

/-- Observable events of a run: the tool presence check, the read of
`config.yaml`, one tool invocation per fetch, and each printed line. -/
inductive Ev where
  | toolCheck
  | configRead
  | invoke (registry image : String)
  | out (line : String)
deriving DecidableEq

/-- How the process ends: `sys.exit(code)`, or an uncaught exception
(which the interpreter reports with a traceback and a non-zero OS exit
status). -/
inductive Outcome where
  | exited (code : Nat)
  | crashed (e : PyErr)
deriving DecidableEq

/-- OS-level exit status: an uncaught exception makes the interpreter
exit with status 1. -/
def osExitCode : Outcome → Nat
  | .exited n => n
  | .crashed _ => 1

/-! ### The printed lines (f-strings of the source) -/

/-- Line 17. -/
def outFetching (registry image : YVal) : String :=
  "Fetching tags for " ++ pyStr image ++ " from " ++ pyStr registry ++ "..."

/-- Line 30. -/
def outErrorLine (registry image : YVal) (stderr : String) : String :=
  "Error fetching tags for " ++ pyStr image ++ " from " ++ pyStr registry ++ ": " ++ stderr

/-- Line 34. -/
def outNoTags (registry image : YVal) : String :=
  "No tags found for " ++ pyStr image ++ " in " ++ pyStr registry ++ "."

/-- Line 41. -/
def outHeader (maxTags image : YVal) : String :=
  "Latest " ++ pyStr maxTags ++ " tags for " ++ pyStr image ++ ":"

/-- Line 49. -/
def outNoSkopeo : String :=
  "Skopeo is not installed. Please install Skopeo to use this script."

/-- Line 57. -/
def outNoConfig : String :=
  "config.yaml file not found."

/-- Line 60. -/
def outYamlError (msg : String) : String :=
  "Error parsing YAML file: " ++ msg

/-! ### `fetch_tags` (source lines 15-44) -/

/-- `fetch_tags(registry, image, max_tags)`: prints the fetching line,
invokes the tool; a `CalledProcessError` is caught and reported with
registry, image and stderr (non-fatal); otherwise the stdout is parsed
and subscripted with `Tags` (a `YAMLError`, `KeyError` or `TypeError`
here escapes the function), a falsy tag value prints the no-tags line,
and a truthy one is sorted descending, headed, sliced to `max_tags`
and printed one tag per line with a trailing blank line. Returns the
events produced and the escaping exception, if any. -/
def fetch_tags (env : Env) (registry image max_tags : YVal) : List Ev × Option PyErr :=
  let r := pyStr registry
  let i := pyStr image
  let ev0 : List Ev := [.out (outFetching registry image), .invoke r i]
  match env.skopeo r i with
  | .failure stderr => (ev0 ++ [.out (outErrorLine registry image stderr)], none)
  | .success (.error msg) => (ev0, some (.yamlError msg))
  | .success (.ok doc) =>
    match doc.getItem "Tags" with
    | .error e => (ev0, some e)
    | .ok tags =>
      if truthy tags then
        match sortTagsDesc tags with
        | .error e => (ev0, some e)
        | .ok sorted_tags =>
          match max_tags with
          | .int m =>
            (ev0 ++ [.out (outHeader max_tags image)]
                ++ (pySliceTo sorted_tags m).map Ev.out ++ [.out ""], none)
          | _ => (ev0 ++ [.out (outHeader max_tags image)], some .typeError)
      else
        (ev0 ++ [.out (outNoTags registry image)], none)

/-- The inner loop of `main` (lines 68-69): fetch every image of one
registry in order; an exception escaping `fetch_tags` aborts the whole
loop. -/
def runImages (env : Env) (maxTags registry : YVal) : List YVal → List Ev × Option PyErr
  | [] => ([], none)
  | img :: rest =>
    match fetch_tags env registry img maxTags with
    | (evs, some e) => (evs, some e)
    | (evs, none) =>
      match runImages env maxTags registry rest with
      | (evs2, res2) => (evs ++ evs2, res2)

/-- The outer loop of `main` (lines 66-69): for each registry entry,
subscript out `registry` and `images` (a `KeyError` or `TypeError`
aborts), iterate the images, then continue with the remaining
entries. -/
def runRegistries (env : Env) (maxTags : YVal) : List YVal → List Ev × Option PyErr
  | [] => ([], none)
  | rc :: rest =>
    match rc.getItem "registry" with
    | .error e => ([], some e)
    | .ok registry =>
      match rc.getItem "images" with
      | .error e => ([], some e)
      | .ok imagesV =>
        match pyIter imagesV with
        | .error e => ([], some e)
        | .ok images =>
          match runImages env maxTags registry images with
          | (evs, some e) => (evs, some e)
          | (evs, none) =>
            match runRegistries env maxTags rest with
            | (evs2, res2) => (evs ++ evs2, res2)

/-- `main` (lines 46-69): tool presence check first (exit 1 with a
fixed line when absent, before the config is read), then the config
load (exit 1 with one diagnostic on `FileNotFoundError` or
`yaml.YAMLError`), then `max = config.get('max', 3)` and the loops over
`config['registries']`; falling off the end of `main` exits 0. -/
def main (env : Env) : List Ev × Outcome :=
  if env.whichSkopeo then
    match env.config with
    | .error .fileNotFound =>
      ([.toolCheck, .configRead, .out outNoConfig], .exited 1)
    | .error (.parseError msg) =>
      ([.toolCheck, .configRead, .out (outYamlError msg)], .exited 1)
    | .ok config =>
      match config.get "max" (.int 3) with
      | .error e => ([.toolCheck, .configRead], .crashed e)
      | .ok maxTags =>
        match config.getItem "registries" with
        | .error e => ([.toolCheck, .configRead], .crashed e)
        | .ok regsV =>
          match pyIter regsV with
          | .error e => ([.toolCheck, .configRead], .crashed e)
          | .ok regs =>
            match runRegistries env maxTags regs with
            | (evs, some e) => ([.toolCheck, .configRead] ++ evs, .crashed e)
            | (evs, none) => ([.toolCheck, .configRead] ++ evs, .exited 0)
  else
    ([.toolCheck, .out outNoSkopeo], .exited 1)

end RemoteTagFetch

namespace RemoteTagFetch

/-! ### Shape of the split: alternating non-digit parts and digit runs -/

/-- Well-formedness of a part list produced by the split, phased:
`false` expects a (possibly empty) digit-free part next, `true` expects
a non-empty all-digit run next. -/
def wfParts : Bool → List (List Char) → Bool
  | _, [] => true
  | false, s :: rest => s.all (fun c => !c.isDigit) && wfParts true rest
  | true, d :: rest => (!d.isEmpty && d.all Char.isDigit) && wfParts false rest

/-- Phase alternation of a `parse_version` key: `false` expects a
string element next, `true` expects an integer element next. -/
def alt : Bool → List Seg → Bool
  | _, [] => true
  | false, .str _ :: rest => alt true rest
  | true, .num _ :: rest => alt false rest
  | _, _ => false

theorem wfParts_splitStep (c : Char) (acc : List (List Char))
    (h : wfParts false acc = true) : wfParts false (splitStep c acc) = true := by
  by_cases hd : c.isDigit
  · rcases acc with _ | ⟨s, rest⟩
    · simp [splitStep, hd, wfParts]
    · rcases s with _ | ⟨c0, s'⟩
      · rcases rest with _ | ⟨d, rest'⟩
        · simp [splitStep, hd, wfParts]
        · simp [splitStep, hd, wfParts] at h ⊢
          tauto
      · simp [splitStep, hd, wfParts] at h ⊢
        tauto
  · rcases acc with _ | ⟨s, rest⟩
    · simp [splitStep, hd, wfParts]
    · simp [splitStep, hd, wfParts] at h ⊢
      tauto

theorem wfParts_splitDigits (cs : List Char) :
    wfParts false (splitDigits cs) = true := by
  induction cs with
  | nil => rfl
  | cons c cs ih => exact wfParts_splitStep c (splitDigits cs) ih

theorem alt_of_wfParts (l : List (List Char)) :
    ∀ b, wfParts b l = true → alt b (l.map toSeg) = true := by
  induction l with
  | nil => intro b _; cases b <;> rfl
  | cons s rest ih =>
    intro b hb
    cases b with
    | false =>
      simp only [wfParts, Bool.and_eq_true] at hb
      have hps : pyIsDigit s = false := by
        cases s with
        | nil => rfl
        | cons c0 s' =>
          have hc0 : c0.isDigit = false := by
            have h := hb.1
            simp only [List.all_cons, Bool.and_eq_true, Bool.not_eq_true'] at h
            exact h.1
          simp [pyIsDigit, hc0]
      have hstep : toSeg s = Seg.str s := by simp [toSeg, hps]
      simp only [List.map_cons, hstep]
      simpa [alt] using ih true hb.2
    | true =>
      simp only [wfParts, Bool.and_eq_true] at hb
      have hps : pyIsDigit s = true := by
        simp only [pyIsDigit, Bool.and_eq_true]
        exact ⟨hb.1.1, hb.1.2⟩
      have hstep : toSeg s = Seg.num (natOfDigits s) := by simp [toSeg, hps]
      simp only [List.map_cons, hstep]
      simpa [alt] using ih false hb.2

/-- Every `parse_version` key alternates: string elements at even
positions, integers at odd positions. -/
theorem alt_parse_version (s : String) : alt false (parse_version s) = true :=
  alt_of_wfParts (splitDigits s.data) false (wfParts_splitDigits s.data)

end RemoteTagFetch

namespace RemoteTagFetch

/-! ### Totality of the key comparison on `parse_version` keys -/

theorem cmpNat_self (n : Nat) : cmpNat n n = .eq := by
  simp [cmpNat]

theorem cmpChar_self (c : Char) : cmpChar c c = .eq := by
  simp [cmpChar, cmpNat_self]

theorem cmpStr_self (s : List Char) : cmpStr s s = .eq := by
  induction s with
  | nil => rfl
  | cons c cs ih => simp [cmpStr, cmpChar_self, ih]

theorem Seg.cmp_self (s : Seg) : Seg.cmp s s = some .eq := by
  cases s with
  | str s => simp [Seg.cmp, cmpStr_self]
  | num n => simp [Seg.cmp, cmpNat_self]

theorem cmpKey_self (k : List Seg) : cmpKey k k = some .eq := by
  induction k with
  | nil => rfl
  | cons s rest ih => simp [cmpKey, Seg.cmp_self, ih]

/-- Two keys in the same phase of the alternation are comparable:
element-wise comparison never reaches an integer-versus-string
position. -/
theorem cmpKey_isSome_of_alt (k1 : List Seg) :
    ∀ (b : Bool) (k2 : List Seg), alt b k1 = true → alt b k2 = true →
      (cmpKey k1 k2).isSome = true := by
  induction k1 with
  | nil =>
    intro b k2 _ _
    cases k2 <;> simp [cmpKey]
  | cons s1 k1 ih =>
    intro b k2 h1 h2
    cases k2 with
    | nil => cases s1 <;> simp [cmpKey]
    | cons s2 k2 =>
      cases b with
      | false =>
        cases s1 with
        | num n => simp [alt] at h1
        | str a =>
          cases s2 with
          | num n => simp [alt] at h2
          | str c =>
            simp only [alt] at h1 h2
            simp only [cmpKey, Seg.cmp]
            cases hc : cmpStr a c with
            | eq => exact ih true k2 h1 h2
            | lt => simp
            | gt => simp
      | true =>
        cases s1 with
        | str a => simp [alt] at h1
        | num n =>
          cases s2 with
          | str c => simp [alt] at h2
          | num m =>
            simp only [alt] at h1 h2
            simp only [cmpKey, Seg.cmp]
            cases hc : cmpNat n m with
            | eq => exact ih false k2 h1 h2
            | lt => simp
            | gt => simp

/-- Comparing two `parse_version` keys never raises. -/
theorem cmpKey_parse_version_isSome (s t : String) :
    (cmpKey (parse_version s) (parse_version t)).isSome = true :=
  cmpKey_isSome_of_alt (parse_version s) false (parse_version t)
    (alt_parse_version s) (alt_parse_version t)

/-! ### The error-propagating sort never raises on tag strings -/

theorem insertE_eq_insertS (x : String) : ∀ l, insertE x l = .ok (insertS x l) := by
  intro l
  induction l with
  | nil => rfl
  | cons y ys ih =>
    obtain ⟨o, ho⟩ : ∃ o, cmpKey (parse_version y) (parse_version x) = some o :=
      Option.isSome_iff_exists.mp (cmpKey_parse_version_isSome y x)
    by_cases hgt : o = Ordering.gt
    · subst hgt
      simp [insertE, insertS, ho, ih]
    · cases o with
      | eq => simp [insertE, insertS, ho]
      | lt => simp [insertE, insertS, ho]
      | gt => exact absurd rfl hgt

theorem sortE_eq_sortS (ts : List String) : sortE ts = .ok (sortS ts) := by
  induction ts with
  | nil => rfl
  | cons x xs ih => simp [sortE, sortS, ih, insertE_eq_insertS]

end RemoteTagFetch

namespace RemoteTagFetch

/-! ### Numeric ordering of keys with matching non-numeric parts -/

/-- The string elements of a key, in order. -/
def strsOf : List Seg → List (List Char)
  | [] => []
  | .str s :: rest => s :: strsOf rest
  | .num _ :: rest => strsOf rest

/-- The integer elements of a key, in order. -/
def numsOf : List Seg → List Nat
  | [] => []
  | .num n :: rest => n :: numsOf rest
  | .str _ :: rest => numsOf rest

/-- Python tuple comparison restricted to integer sequences. -/
def cmpNatList : List Nat → List Nat → Ordering
  | [], [] => .eq
  | [], _ :: _ => .lt
  | _ :: _, [] => .gt
  | a :: as, b :: bs =>
    match cmpNat a b with
    | .eq => cmpNatList as bs
    | o => o

/-- On two alternating keys whose string elements agree, the key
comparison is exactly the numeric comparison of their digit-run
values: the text parts always compare equal and the integers decide. -/
theorem cmpKey_eq_cmpNatList (k1 : List Seg) :
    ∀ (b : Bool) (k2 : List Seg), alt b k1 = true → alt b k2 = true →
      strsOf k1 = strsOf k2 →
      cmpKey k1 k2 = some (cmpNatList (numsOf k1) (numsOf k2)) := by
  induction k1 with
  | nil =>
    intro b k2 _ h2 hs
    cases k2 with
    | nil => rfl
    | cons s2 k2 =>
      cases b with
      | false =>
        cases s2 with
        | str c => simp [strsOf] at hs
        | num m => simp [alt] at h2
      | true =>
        cases s2 with
        | str c => simp [alt] at h2
        | num m => simp [cmpKey, numsOf, cmpNatList]
  | cons s1 k1 ih =>
    intro b k2 h1 h2 hs
    cases k2 with
    | nil =>
      cases b with
      | false =>
        cases s1 with
        | str a => simp [strsOf] at hs
        | num n => simp [alt] at h1
      | true =>
        cases s1 with
        | str a => simp [alt] at h1
        | num n => simp [cmpKey, numsOf, cmpNatList]
    | cons s2 k2 =>
      cases b with
      | false =>
        cases s1 with
        | num n => simp [alt] at h1
        | str a =>
          cases s2 with
          | num m => simp [alt] at h2
          | str c =>
            simp only [alt] at h1 h2
            simp only [strsOf, List.cons.injEq] at hs
            obtain ⟨hac, htl⟩ := hs
            subst hac
            simp only [cmpKey, Seg.cmp, cmpStr_self, numsOf]
            exact ih true k2 h1 h2 htl
      | true =>
        cases s1 with
        | str a => simp [alt] at h1
        | num n =>
          cases s2 with
          | str c => simp [alt] at h2
          | num m =>
            simp only [alt] at h1 h2
            simp only [strsOf] at hs
            simp only [cmpKey, Seg.cmp, numsOf, cmpNatList]
            cases hc : cmpNat n m with
            | eq => exact ih false k2 h1 h2 hs
            | lt => simp
            | gt => simp

end RemoteTagFetch

namespace RemoteTagFetch

/-! ### Stability of the descending sort -/

theorem filter_insertS_of_eq (x : String) :
    ∀ l, (insertS x l).filter (fun t => decide (parse_version t = parse_version x))
       = x :: l.filter (fun t => decide (parse_version t = parse_version x)) := by
  intro l
  induction l with
  | nil => simp [insertS]
  | cons y ys ih =>
    cases hcmp : cmpKey (parse_version y) (parse_version x) with
    | none => simp [insertS, hcmp]
    | some o =>
      cases o with
      | lt => simp [insertS, hcmp]
      | eq => simp [insertS, hcmp]
      | gt =>
        have hyk : ¬ parse_version y = parse_version x := by
          intro hy
          rw [hy, cmpKey_self] at hcmp
          simp at hcmp
        simp only [insertS, hcmp]
        simp [List.filter_cons, hyk, ih]

theorem filter_insertS_of_ne (k : List Seg) (x : String)
    (hx : ¬ parse_version x = k) :
    ∀ l, (insertS x l).filter (fun t => decide (parse_version t = k))
       = l.filter (fun t => decide (parse_version t = k)) := by
  intro l
  induction l with
  | nil => simp [insertS, hx]
  | cons y ys ih =>
    cases hcmp : cmpKey (parse_version y) (parse_version x) with
    | none => simp [insertS, hcmp, hx]
    | some o =>
      cases o with
      | lt => simp [insertS, hcmp, hx]
      | eq => simp [insertS, hcmp, hx]
      | gt =>
        simp only [insertS, hcmp]
        simp [List.filter_cons, ih]

/-- Stability of `sorted(..., key=parse_version, reverse=True)`: the
elements carrying any fixed key appear in the sorted output exactly in
their original relative order. -/
theorem filter_sortS (k : List Seg) :
    ∀ ts : List String,
      (sortS ts).filter (fun t => decide (parse_version t = k))
        = ts.filter (fun t => decide (parse_version t = k)) := by
  intro ts
  induction ts with
  | nil => rfl
  | cons x xs ih =>
    by_cases hx : parse_version x = k
    · subst hx
      simp only [sortS, filter_insertS_of_eq x (sortS xs), ih]
      simp [List.filter_cons]
    · simp only [sortS, filter_insertS_of_ne k x hx (sortS xs), ih]
      simp [List.filter_cons, hx]

end RemoteTagFetch

namespace RemoteTagFetch

/-! ### Behaviour of `fetch_tags` case by case -/

theorem asStrList_map_str (ts : List String) :
    asStrList (ts.map YVal.str) = .ok ts := by
  induction ts with
  | nil => rfl
  | cons t ts ih => simp [asStrList, asStr, ih]

theorem sortTagsDesc_list_str (ts : List String) :
    sortTagsDesc (.list (ts.map YVal.str)) = .ok (sortS ts) := by
  simp [sortTagsDesc, asStrList_map_str, sortE_eq_sortS]

/-- A caught tool failure: the fetching line, the invocation, the error
diagnostic naming image, registry and the stderr text; no exception
escapes (`return` on line 31). -/
theorem fetch_tags_failure (env : Env) (reg img mt : YVal) (st : String)
    (hresp : env.skopeo (pyStr reg) (pyStr img) = .failure st) :
    fetch_tags env reg img mt =
      ([.out (outFetching reg img), .invoke (pyStr reg) (pyStr img),
        .out (outErrorLine reg img st)], none) := by
  simp [fetch_tags, hresp]

/-- A successful invocation whose parsed `Tags` value is falsy: the
no-tags diagnostic, no exception (`return` on line 35). -/
theorem fetch_tags_falsy (env : Env) (reg img mt doc v : YVal)
    (hresp : env.skopeo (pyStr reg) (pyStr img) = .success (.ok doc))
    (htags : doc.getItem "Tags" = .ok v)
    (hfalsy : truthy v = false) :
    fetch_tags env reg img mt =
      ([.out (outFetching reg img), .invoke (pyStr reg) (pyStr img),
        .out (outNoTags reg img)], none) := by
  simp [fetch_tags, hresp, htags, hfalsy]

/-- A successful invocation with a non-empty list of tag strings and an
integer bound: header, the slice of the descending-sorted tags one per
line, then the blank line. -/
theorem fetch_tags_list (env : Env) (reg img doc : YVal) (ts : List String) (m : Int)
    (hresp : env.skopeo (pyStr reg) (pyStr img) = .success (.ok doc))
    (htags : doc.getItem "Tags" = .ok (.list (ts.map YVal.str)))
    (hne : ts ≠ []) :
    fetch_tags env reg img (.int m) =
      ([.out (outFetching reg img), .invoke (pyStr reg) (pyStr img),
        .out (outHeader (.int m) img)] ++ (pySliceTo (sortS ts) m).map Ev.out
        ++ [.out ""], none) := by
  have hmap : (ts.map YVal.str) ≠ [] := by simpa using hne
  have htr : truthy (.list (ts.map YVal.str)) = true := by
    simp [truthy, List.isEmpty_eq_false.mpr hmap]
  simp [fetch_tags, hresp, htags, htr, sortTagsDesc_list_str]

/-! ### Responses and configurations that cannot crash the run -/

/-- Whether a YAML value is a string. -/
def isStrV : YVal → Bool
  | .str _ => true
  | _ => false

/-- `Tags` values the script handles without raising: null (falsy), a
string (falsy when empty, otherwise its characters are sorted as
one-character strings), or a list of strings. -/
def tagsOk : YVal → Bool
  | .null => true
  | .str _ => true
  | .list xs => xs.all isStrV
  | _ => false

/-- A tool response the script survives: any non-zero exit (caught), or
a zero exit whose stdout parses to a mapping with a `Tags` key holding
a `tagsOk` value. -/
def benignResp : ToolResp → Bool
  | .failure _ => true
  | .success (.error _) => false
  | .success (.ok (.map es)) =>
    match es.lookup "Tags" with
    | some v => tagsOk v
    | none => false
  | .success (.ok _) => false

/-- A registry entry of the expected shape: a mapping with a
`registry` key and an `images` key holding a sequence. -/
def wfEntry : YVal → Bool
  | .map es =>
    (match es.lookup "registry" with
     | some _ => true
     | none => false)
    && (match es.lookup "images" with
        | some (.list _) => true
        | _ => false)
  | _ => false

/-- A configuration of the expected shape: a mapping whose `max` key,
if present, is an integer, and whose `registries` key holds a sequence
of well-formed entries. -/
def wfConfig : YVal → Bool
  | .map es =>
    (match es.lookup "max" with
     | none => true
     | some (.int _) => true
     | some _ => false)
    && (match es.lookup "registries" with
        | some (.list rcs) => rcs.all wfEntry
        | _ => false)
  | _ => false

theorem asStrList_of_all_str (xs : List YVal) (h : xs.all isStrV = true) :
    asStrList xs = .ok (xs.map pyStr) := by
  induction xs with
  | nil => rfl
  | cons x xs ih =>
    simp only [List.all_cons, Bool.and_eq_true] at h
    cases x with
    | str s => simp [asStrList, asStr, ih h.2, pyStr]
    | null => simp [isStrV] at h
    | int n => simp [isStrV] at h
    | list l => simp [isStrV] at h
    | map es => simp [isStrV] at h

theorem sortTagsDesc_of_tagsOk (v : YVal) (h : tagsOk v = true)
    (htr : truthy v = true) : ∃ r, sortTagsDesc v = .ok r := by
  cases v with
  | null => simp [truthy] at htr
  | int n => simp [tagsOk] at h
  | map es => simp [tagsOk] at h
  | str s =>
    exact ⟨sortS (s.data.map (fun c => String.mk [c])),
      by simp [sortTagsDesc, sortE_eq_sortS]⟩
  | list xs =>
    simp only [tagsOk] at h
    exact ⟨sortS (xs.map pyStr),
      by simp [sortTagsDesc, asStrList_of_all_str xs h, sortE_eq_sortS]⟩

/-- With an integer `max` and a benign tool response, `fetch_tags`
never lets an exception escape. -/
theorem fetch_tags_benign (env : Env) (reg img : YVal) (m : Int)
    (h : benignResp (env.skopeo (pyStr reg) (pyStr img)) = true) :
    (fetch_tags env reg img (.int m)).2 = none := by
  cases hresp : env.skopeo (pyStr reg) (pyStr img) with
  | failure st => simp [fetch_tags_failure env reg img _ st hresp]
  | success p =>
    rw [hresp] at h
    cases p with
    | error msg => simp [benignResp] at h
    | ok doc =>
      cases doc with
      | null => simp [benignResp] at h
      | str s => simp [benignResp] at h
      | int n => simp [benignResp] at h
      | list xs => simp [benignResp] at h
      | map es =>
        simp only [benignResp] at h
        cases hl : es.lookup "Tags" with
        | none => rw [hl] at h; simp at h
        | some v =>
          rw [hl] at h
          have hget : YVal.getItem (.map es) "Tags" = .ok v := by
            simp [YVal.getItem, hl]
          cases htr : truthy v with
          | false => simp [fetch_tags_falsy env reg img _ _ v hresp hget htr]
          | true =>
            obtain ⟨r, hr⟩ := sortTagsDesc_of_tagsOk v h htr
            simp [fetch_tags, hresp, hget, htr, hr]

end RemoteTagFetch

namespace RemoteTagFetch

/-! ### Composition of the loops -/

/-- When a fetch returns normally, the image loop simply continues: the
events of the remaining images follow, and the final result is theirs. -/
theorem runImages_cons_ok (env : Env) (mt reg img : YVal) (rest : List YVal)
    (h : (fetch_tags env reg img mt).2 = none) :
    runImages env mt reg (img :: rest) =
      ((fetch_tags env reg img mt).1 ++ (runImages env mt reg rest).1,
       (runImages env mt reg rest).2) := by
  cases hf : fetch_tags env reg img mt with
  | mk evs res =>
    rw [hf] at h
    simp only at h
    subst h
    cases hr : runImages env mt reg rest with
    | mk evs2 res2 => simp [runImages, hf, hr]

/-- With an integer `max` and benign responses everywhere, the image
loop never crashes. -/
theorem runImages_benign (env : Env) (reg : YVal) (m : Int)
    (hb : ∀ r i, benignResp (env.skopeo r i) = true) :
    ∀ imgs : List YVal, (runImages env (.int m) reg imgs).2 = none := by
  intro imgs
  induction imgs with
  | nil => rfl
  | cons img rest ih =>
    have h := fetch_tags_benign env reg img m (hb _ _)
    cases hf : fetch_tags env reg img (.int m) with
    | mk evs res =>
      rw [hf] at h
      simp only at h
      subst h
      cases hr : runImages env (.int m) reg rest with
      | mk evs2 res2 =>
        rw [hr] at ih
        simp only at ih
        subst ih
        simp [runImages, hf, hr]

/-- When one registry entry is well-shaped and its image loop returns
normally, the registry loop continues with the remaining entries. -/
theorem runRegistries_cons_ok (env : Env) (mt rc : YVal) (rest : List YVal)
    (es : List (String × YVal)) (registryV : YVal) (imgs : List YVal)
    (hrc : rc = .map es)
    (hreg : es.lookup "registry" = some registryV)
    (himg : es.lookup "images" = some (.list imgs))
    (hok : (runImages env mt registryV imgs).2 = none) :
    runRegistries env mt (rc :: rest) =
      ((runImages env mt registryV imgs).1 ++ (runRegistries env mt rest).1,
       (runRegistries env mt rest).2) := by
  subst hrc
  cases hri : runImages env mt registryV imgs with
  | mk evs res =>
    rw [hri] at hok
    simp only at hok
    subst hok
    cases hrr : runRegistries env mt rest with
    | mk evs2 res2 =>
      simp [runRegistries, YVal.getItem, hreg, himg, pyIter, hri, hrr]

/-- With an integer `max`, well-shaped entries and benign responses,
the registry loop never crashes. -/
theorem runRegistries_benign (env : Env) (m : Int)
    (hb : ∀ r i, benignResp (env.skopeo r i) = true) :
    ∀ rcs : List YVal, rcs.all wfEntry = true →
      (runRegistries env (.int m) rcs).2 = none := by
  intro rcs
  induction rcs with
  | nil => intro _; rfl
  | cons rc rest ih =>
    intro hall
    simp only [List.all_cons, Bool.and_eq_true] at hall
    obtain ⟨hrc, hrest⟩ := hall
    cases rc with
    | null => simp [wfEntry] at hrc
    | str s => simp [wfEntry] at hrc
    | int n => simp [wfEntry] at hrc
    | list l => simp [wfEntry] at hrc
    | map es =>
      simp only [wfEntry, Bool.and_eq_true] at hrc
      obtain ⟨hreg, himg⟩ := hrc
      cases hlr : es.lookup "registry" with
      | none => rw [hlr] at hreg; simp at hreg
      | some registryV =>
        cases hli : es.lookup "images" with
        | none => rw [hli] at himg; simp at himg
        | some imgsV =>
          cases imgsV with
          | null => rw [hli] at himg; simp at himg
          | str s => rw [hli] at himg; simp at himg
          | int n => rw [hli] at himg; simp at himg
          | map es2 => rw [hli] at himg; simp at himg
          | list imgs =>
            have hok := runImages_benign env registryV m hb imgs
            rw [runRegistries_cons_ok env (.int m) (.map es) rest es registryV
              imgs rfl hlr hli hok]
            exact ih hrest

/-- Extract the integer `max` value from a well-formed configuration. -/
theorem get_max_of_wfConfig (es : List (String × YVal))
    (h : wfConfig (.map es) = true) :
    ∃ m : Int, YVal.get (.map es) "max" (.int 3) = .ok (.int m) := by
  simp only [wfConfig, Bool.and_eq_true] at h
  cases hl : es.lookup "max" with
  | none => exact ⟨3, by simp [YVal.get, hl]⟩
  | some v =>
    cases v with
    | int n => exact ⟨n, by simp [YVal.get, hl]⟩
    | null => rw [hl] at h; simp at h
    | str s => rw [hl] at h; simp at h
    | list l => rw [hl] at h; simp at h
    | map es2 => rw [hl] at h; simp at h

/-- A run with the tool present, a well-formed configuration and benign
responses everywhere exits 0, however many fetches failed. -/
theorem main_exit0 (env : Env) (c : YVal)
    (hsk : env.whichSkopeo = true)
    (hcfg : env.config = .ok c)
    (hwf : wfConfig c = true)
    (hb : ∀ r i, benignResp (env.skopeo r i) = true) :
    (main env).2 = .exited 0 := by
  cases c with
  | null => simp [wfConfig] at hwf
  | str s => simp [wfConfig] at hwf
  | int n => simp [wfConfig] at hwf
  | list l => simp [wfConfig] at hwf
  | map es =>
    obtain ⟨m, hmax⟩ := get_max_of_wfConfig es hwf
    simp only [wfConfig, Bool.and_eq_true] at hwf
    cases hlr : es.lookup "registries" with
    | none => rw [hlr] at hwf; simp at hwf
    | some regsV =>
      cases regsV with
      | null => rw [hlr] at hwf; simp at hwf
      | str s => rw [hlr] at hwf; simp at hwf
      | int n => rw [hlr] at hwf; simp at hwf
      | map es2 => rw [hlr] at hwf; simp at hwf
      | list rcs =>
        rw [hlr] at hwf
        have hall : rcs.all wfEntry = true := hwf.2
        have hrun := runRegistries_benign env m hb rcs hall
        cases hrr : runRegistries env (.int m) rcs with
        | mk evs res =>
          rw [hrr] at hrun
          simp only at hrun
          subst hrun
          simp [main, hsk, hcfg, hmax, YVal.getItem, hlr, pyIter, hrr]

end RemoteTagFetch

namespace RemoteTagFetch

/-! ### The claims -/

/-- C1: when tags split into the same non-numeric parts, the
descending sort orders them by the integer values of their digit runs,
not lexically: on any two alternating keys with identical string
elements, the tuple comparison equals the numeric comparison of the
digit-run values; sorting `["1.2.0", "1.10.0", "1.9.0"]` descending
yields `["1.10.0", "1.9.0", "1.2.0"]`, and `"v10"` is placed before
`"v2"`. -/
theorem sort_orders_numeric_segments :
    (∀ k1 k2 : List Seg, alt false k1 = true → alt false k2 = true →
       strsOf k1 = strsOf k2 →
       cmpKey k1 k2 = some (cmpNatList (numsOf k1) (numsOf k2)))
    ∧ sortS ["1.2.0", "1.10.0", "1.9.0"] = ["1.10.0", "1.9.0", "1.2.0"]
    ∧ sortS ["v2", "v10"] = ["v10", "v2"] := by
  refine ⟨fun k1 k2 h1 h2 hs => cmpKey_eq_cmpNatList k1 false k2 h1 h2 hs, ?_, ?_⟩
  · decide
  · decide

/-- Witness for C1 at the keys of `"v2"` and `"v10"`. -/
theorem sort_orders_numeric_segments_witness :
    alt false (parse_version "v2") = true
    ∧ alt false (parse_version "v10") = true
    ∧ strsOf (parse_version "v2") = strsOf (parse_version "v10")
    ∧ cmpKey (parse_version "v2") (parse_version "v10")
        = some (cmpNatList (numsOf (parse_version "v2"))
            (numsOf (parse_version "v10"))) :=
  ⟨by decide, by decide, by decide,
   sort_orders_numeric_segments.1 (parse_version "v2") (parse_version "v10")
     (by decide) (by decide) (by decide)⟩

/-- C8: the descending sort is stable: for every input list and every
key, the elements carrying that key keep their original relative order
(reversing the comparison does not reverse equal-key elements); in
particular `"1"` and `"01"` have the same key and keep their order. -/
theorem sort_stable_on_equal_keys :
    (∀ (ts : List String) (k : List Seg),
       (sortS ts).filter (fun t => decide (parse_version t = k))
         = ts.filter (fun t => decide (parse_version t = k)))
    ∧ parse_version "1" = parse_version "01"
    ∧ sortS ["1", "01"] = ["1", "01"] :=
  ⟨fun ts k => filter_sortS k ts, by decide, by decide⟩

/-- C9: every `parse_version` key strictly alternates string elements
at even positions with integer elements at odd positions, so comparing
two keys never reaches an integer-versus-string position: the
comparison is total and the sort never raises a mixed-type
`TypeError`. -/
theorem keys_alternate_and_sort_total :
    (∀ s : String, alt false (parse_version s) = true)
    ∧ (∀ s t : String,
        (cmpKey (parse_version s) (parse_version t)).isSome = true)
    ∧ (∀ ts : List String, sortE ts = .ok (sortS ts)) :=
  ⟨alt_parse_version, cmpKey_parse_version_isSome, sortE_eq_sortS⟩

/-- C5: when the external tool is absent, the run prints the fixed
diagnostic and exits 1 with no config read and no invocation in its
trace; the config read only ever happens after the presence check
succeeded. -/
theorem missing_tool_exits_before_config :
    (∀ env : Env, env.whichSkopeo = false →
       main env = ([.toolCheck, .out outNoSkopeo], .exited 1))
    ∧ (∀ env : Env, env.whichSkopeo = false →
       Ev.configRead ∉ (main env).1 ∧ ∀ r i, Ev.invoke r i ∉ (main env).1)
    ∧ (∀ env : Env, Ev.configRead ∈ (main env).1 → env.whichSkopeo = true) := by
  have hmain : ∀ env : Env, env.whichSkopeo = false →
      main env = ([.toolCheck, .out outNoSkopeo], .exited 1) := by
    intro env h
    simp [main, h]
  refine ⟨hmain, ?_, ?_⟩
  · intro env h
    rw [hmain env h]
    exact ⟨by simp, fun r i => by simp⟩
  · intro env hmem
    cases hsk : env.whichSkopeo with
    | true => rfl
    | false =>
      rw [hmain env hsk] at hmem
      simp at hmem

/-- A host with no tool installed. -/
def envNoTool : Env where
  whichSkopeo := false
  config := .error .fileNotFound
  skopeo := fun _ _ => .failure ""

/-- Witness for C5 at a host without the tool. -/
theorem missing_tool_exits_before_config_witness :
    main envNoTool = ([.toolCheck, .out outNoSkopeo], .exited 1)
    ∧ Ev.configRead ∉ (main envNoTool).1 :=
  ⟨missing_tool_exits_before_config.1 envNoTool rfl,
   (missing_tool_exits_before_config.2.1 envNoTool rfl).1⟩

/-- C6: with the tool present but the configuration missing or
malformed, the run prints exactly one diagnostic, exits 1, and its
trace holds no tool invocation. -/
theorem config_error_fatal_before_fetch :
    (∀ env : Env, env.whichSkopeo = true →
       env.config = .error .fileNotFound →
       main env = ([.toolCheck, .configRead, .out outNoConfig], .exited 1)
       ∧ ∀ r i, Ev.invoke r i ∉ (main env).1)
    ∧ (∀ (env : Env) (msg : String), env.whichSkopeo = true →
       env.config = .error (.parseError msg) →
       main env = ([.toolCheck, .configRead, .out (outYamlError msg)], .exited 1)
       ∧ ∀ r i, Ev.invoke r i ∉ (main env).1) := by
  constructor
  · intro env h1 h2
    have hm : main env = ([.toolCheck, .configRead, .out outNoConfig], .exited 1) := by
      simp [main, h1, h2]
    exact ⟨hm, fun r i => by rw [hm]; simp⟩
  · intro env msg h1 h2
    have hm : main env
        = ([.toolCheck, .configRead, .out (outYamlError msg)], .exited 1) := by
      simp [main, h1, h2]
    exact ⟨hm, fun r i => by rw [hm]; simp⟩

/-- A host with the tool but no `config.yaml`. -/
def envNoConfig : Env where
  whichSkopeo := true
  config := .error .fileNotFound
  skopeo := fun _ _ => .failure ""

/-- A host with the tool but a malformed `config.yaml`. -/
def envBadYaml : Env where
  whichSkopeo := true
  config := .error (.parseError "bad indent")
  skopeo := fun _ _ => .failure ""

/-- Witness for C6 at a missing and at a malformed configuration. -/
theorem config_error_fatal_before_fetch_witness :
    main envNoConfig = ([.toolCheck, .configRead, .out outNoConfig], .exited 1)
    ∧ main envBadYaml
      = ([.toolCheck, .configRead,
          .out (outYamlError "bad indent")], .exited 1) :=
  ⟨(config_error_fatal_before_fetch.1 envNoConfig rfl rfl).1,
   (config_error_fatal_before_fetch.2 envBadYaml "bad indent" rfl rfl).1⟩

end RemoteTagFetch

namespace RemoteTagFetch

/-- A run whose tool responses are a mapping without a `Tags` key,
with a second image configured after the first. -/
def envAbsentTags : Env where
  whichSkopeo := true
  config := .ok (.map [("registries", .list [.map
    [("registry", .str "quay.io"),
     ("images", .list [.str "ns/app", .str "ns/other"])]])])
  skopeo := fun _ _ => .success (.ok (.map [("Status", .str "ok")]))

/-- C2 counterexample: a zero-exit response whose parsed mapping has no
`Tags` key does not print the no-tags diagnostic and does not continue
to the next pair: the subscript raises an uncaught `KeyError` and the
process aborts. -/
theorem absent_tags_key_aborts :
    main envAbsentTags =
      ([.toolCheck, .configRead,
        .out (outFetching (.str "quay.io") (.str "ns/app")),
        .invoke "quay.io" "ns/app"], .crashed (.keyError "Tags"))
    ∧ Ev.out (outNoTags (.str "quay.io") (.str "ns/app")) ∉ (main envAbsentTags).1
    ∧ Ev.invoke "quay.io" "ns/other" ∉ (main envAbsentTags).1
    ∧ (main envAbsentTags).2 ≠ .exited 0 :=
  ⟨rfl, by decide, by decide, by decide⟩

/-- C2 (amended): a zero-exit response whose parsed mapping carries a
`Tags` key with a falsy value (empty list, null, empty string) prints
the no-tags diagnostic, returns no tags, and the image loop continues
with the next pair. -/
theorem empty_or_null_tags_nonfatal :
    ∀ (env : Env) (reg img mt doc v : YVal) (rest : List YVal),
      env.skopeo (pyStr reg) (pyStr img) = .success (.ok doc) →
      doc.getItem "Tags" = .ok v →
      truthy v = false →
      fetch_tags env reg img mt =
        ([.out (outFetching reg img), .invoke (pyStr reg) (pyStr img),
          .out (outNoTags reg img)], none)
      ∧ runImages env mt reg (img :: rest) =
          ([.out (outFetching reg img), .invoke (pyStr reg) (pyStr img),
            .out (outNoTags reg img)] ++ (runImages env mt reg rest).1,
           (runImages env mt reg rest).2) := by
  intro env reg img mt doc v rest h1 h2 h3
  have hf := fetch_tags_falsy env reg img mt doc v h1 h2 h3
  refine ⟨hf, ?_⟩
  have hcont := runImages_cons_ok env mt reg img rest (by rw [hf])
  rw [hcont, hf]

/-- A run answering an empty `Tags` list for the first image and a
null `Tags` for the second. -/
def envEmptyTags : Env where
  whichSkopeo := true
  config := .ok (.map [("registries", .list [.map
    [("registry", .str "quay.io"),
     ("images", .list [.str "ns/app", .str "ns/other"])]])])
  skopeo := fun _ i =>
    if i == "ns/app" then .success (.ok (.map [("Tags", .list [])]))
    else .success (.ok (.map [("Tags", .null)]))

/-- Witness for amended C2: an empty `Tags` list prints the no-tags
line and the second image is still fetched. -/
theorem empty_or_null_tags_nonfatal_witness :
    envEmptyTags.skopeo (pyStr (.str "quay.io")) (pyStr (.str "ns/app"))
      = .success (.ok (.map [("Tags", .list [])]))
    ∧ (YVal.map [("Tags", .list [])]).getItem "Tags" = .ok (.list [])
    ∧ truthy (.list []) = false
    ∧ fetch_tags envEmptyTags (.str "quay.io") (.str "ns/app") (.int 3) =
        ([.out "Fetching tags for ns/app from quay.io...",
          .invoke "quay.io" "ns/app",
          .out "No tags found for ns/app in quay.io."], none)
    ∧ Ev.invoke "quay.io" "ns/other" ∈ (main envEmptyTags).1 :=
  ⟨rfl, rfl, rfl,
   (empty_or_null_tags_nonfatal envEmptyTags (.str "quay.io") (.str "ns/app")
     (.int 3) (.map [("Tags", .list [])]) (.list []) [] rfl rfl rfl).1,
   by decide⟩

/-- A run whose tool response stdout parses to a bare YAML scalar. -/
def envScalarResp : Env where
  whichSkopeo := true
  config := .ok (.map [("registries", .list [.map
    [("registry", .str "quay.io"),
     ("images", .list [.str "ns/app"])]])])
  skopeo := fun _ _ => .success (.ok (.str "oops"))

/-- A run whose configuration loads fine but has no `registries`
key. -/
def envNoRegistries : Env where
  whichSkopeo := true
  config := .ok (.map [("max", .int 2)])
  skopeo := fun _ _ => .failure "never reached"

/-- C3 counterexample: the tool is present and the configuration file
loads, yet the run does not exit 0: a zero-exit response parsing to a
non-mapping raises `TypeError` (OS exit status 1), and a loaded
configuration without `registries` raises `KeyError` before any
fetch. -/
theorem crash_beyond_preconditions :
    envScalarResp.whichSkopeo = true
    ∧ envScalarResp.config
        = .ok (.map [("registries", .list [.map
            [("registry", .str "quay.io"),
             ("images", .list [.str "ns/app"])]])])
    ∧ (main envScalarResp).2 = .crashed .typeError
    ∧ osExitCode (main envScalarResp).2 = 1
    ∧ envNoRegistries.whichSkopeo = true
    ∧ envNoRegistries.config = .ok (.map [("max", .int 2)])
    ∧ (main envNoRegistries).2 = .crashed (.keyError "registries")
    ∧ (main envNoRegistries).2 ≠ .exited 0 :=
  ⟨rfl, rfl, rfl, rfl, rfl, rfl, rfl, by decide⟩

/-- C3 (amended): with the tool present, a configuration of the
expected shape (`registries` a sequence of entries each holding
`registry` and an `images` sequence; `max` absent or an integer) and
every zero-exit response parsing to a mapping whose `Tags` value is a
string list, a string or null, the run exits 0, however many
invocations fail with non-zero status. -/
theorem exits_zero_with_wellformed_responses :
    ∀ (env : Env) (c : YVal), env.whichSkopeo = true → env.config = .ok c →
      wfConfig c = true → (∀ r i, benignResp (env.skopeo r i) = true) →
      (main env).2 = .exited 0 :=
  fun env c h1 h2 h3 h4 => main_exit0 env c h1 h2 h3 h4

/-- A run in which every fetch fails with a non-zero tool exit. -/
def envAllFail : Env where
  whichSkopeo := true
  config := .ok (.map [("registries", .list [.map
    [("registry", .str "quay.io"),
     ("images", .list [.str "ns/app", .str "ns/db"])]])])
  skopeo := fun _ _ => .failure "unauthorized"

/-- Witness for amended C3: both fetches fail, the run still exits
0. -/
theorem exits_zero_with_wellformed_responses_witness :
    envAllFail.whichSkopeo = true
    ∧ envAllFail.config
        = .ok (.map [("registries", .list [.map
            [("registry", .str "quay.io"),
             ("images", .list [.str "ns/app", .str "ns/db"])]])])
    ∧ wfConfig (.map [("registries", .list [.map
        [("registry", .str "quay.io"),
         ("images", .list [.str "ns/app", .str "ns/db"])]])]) = true
    ∧ (main envAllFail).2 = .exited 0 :=
  ⟨rfl, rfl, rfl,
   exits_zero_with_wellformed_responses envAllFail
     (.map [("registries", .list [.map
       [("registry", .str "quay.io"),
        ("images", .list [.str "ns/app", .str "ns/db"])]])])
     rfl rfl rfl (fun _ _ => rfl)⟩

end RemoteTagFetch

namespace RemoteTagFetch

/-- C4: a non-zero tool exit is caught: the fetch prints a diagnostic
carrying the registry, the image and the stderr text, yields no tags
and raises nothing, and both the remaining images of the entry and the
remaining registry entries are still processed in order. -/
theorem fetch_failure_isolated :
    (∀ (env : Env) (reg img mt : YVal) (st : String),
       env.skopeo (pyStr reg) (pyStr img) = .failure st →
       fetch_tags env reg img mt =
         ([.out (outFetching reg img), .invoke (pyStr reg) (pyStr img),
           .out (outErrorLine reg img st)], none))
    ∧ (∀ (env : Env) (mt reg img : YVal) (rest : List YVal),
       (fetch_tags env reg img mt).2 = none →
       runImages env mt reg (img :: rest) =
         ((fetch_tags env reg img mt).1 ++ (runImages env mt reg rest).1,
          (runImages env mt reg rest).2))
    ∧ (∀ (env : Env) (mt : YVal) (rest : List YVal)
         (es : List (String × YVal)) (registryV : YVal) (imgs : List YVal),
       es.lookup "registry" = some registryV →
       es.lookup "images" = some (.list imgs) →
       (runImages env mt registryV imgs).2 = none →
       runRegistries env mt (.map es :: rest) =
         ((runImages env mt registryV imgs).1 ++ (runRegistries env mt rest).1,
          (runRegistries env mt rest).2)) :=
  ⟨fetch_tags_failure,
   fun env mt reg img rest h => runImages_cons_ok env mt reg img rest h,
   fun env mt rest es registryV imgs h1 h2 h3 =>
     runRegistries_cons_ok env mt (.map es) rest es registryV imgs rfl h1 h2 h3⟩

/-- A run whose first image fails with a non-zero tool exit while the
second succeeds. -/
def envFirstFails : Env where
  whichSkopeo := true
  config := .ok (.map [("registries", .list [.map
    [("registry", .str "quay.io"),
     ("images", .list [.str "ns/bad", .str "ns/good"])]])])
  skopeo := fun _ i =>
    if i == "ns/bad" then .failure "manifest unknown"
    else .success (.ok (.map [("Tags", .list [.str "2", .str "10"])]))

/-- Witness for C4: the failing pair prints the error line with
registry, image and stderr, the run still reaches the next pair and
exits 0. -/
theorem fetch_failure_isolated_witness :
    envFirstFails.skopeo (pyStr (.str "quay.io")) (pyStr (.str "ns/bad"))
      = .failure "manifest unknown"
    ∧ fetch_tags envFirstFails (.str "quay.io") (.str "ns/bad") (.int 3) =
        ([.out "Fetching tags for ns/bad from quay.io...",
          .invoke "quay.io" "ns/bad",
          .out "Error fetching tags for ns/bad from quay.io: manifest unknown"],
         none)
    ∧ Ev.invoke "quay.io" "ns/good" ∈ (main envFirstFails).1
    ∧ Ev.out "10" ∈ (main envFirstFails).1
    ∧ (main envFirstFails).2 = .exited 0 :=
  ⟨rfl,
   fetch_failure_isolated.1 envFirstFails (.str "quay.io") (.str "ns/bad")
     (.int 3) "manifest unknown" rfl,
   by decide, by decide, by decide⟩

/-- C7: on a non-empty fetched tag list and a positive `max`, the
output after the header is exactly the first `max` entries of the
descending-sorted sequence (all of them when fewer), one per line,
followed by the blank separator. -/
theorem truncates_to_max :
    ∀ (env : Env) (reg img doc : YVal) (ts : List String) (m : Nat),
      env.skopeo (pyStr reg) (pyStr img) = .success (.ok doc) →
      doc.getItem "Tags" = .ok (.list (ts.map YVal.str)) →
      ts ≠ [] → 0 < m →
      fetch_tags env reg img (.int m) =
        ([.out (outFetching reg img), .invoke (pyStr reg) (pyStr img),
          .out (outHeader (.int m) img)] ++ ((sortS ts).take m).map Ev.out
          ++ [.out ""], none) := by
  intro env reg img doc ts m h1 h2 h3 _
  have h := fetch_tags_list env reg img doc ts (m : Int) h1 h2 h3
  rw [h]
  have hslice : pySliceTo (sortS ts) (m : Int) = (sortS ts).take m := by
    simp [pySliceTo]
  rw [hslice]

/-- A run answering the three example tags. -/
def envThreeTags : Env where
  whichSkopeo := true
  config := .ok (.map [("max", .int 2), ("registries", .list [.map
    [("registry", .str "quay.io"),
     ("images", .list [.str "kube"])]])])
  skopeo := fun _ _ => .success (.ok (.map
    [("Tags", .list [.str "1.2.0", .str "1.10.0", .str "1.9.0"])]))

/-- Witness for C7: with `max = 2` and tags
`["1.2.0", "1.10.0", "1.9.0"]`, only `"1.10.0"` and `"1.9.0"` are
printed after the header. -/
theorem truncates_to_max_witness :
    envThreeTags.skopeo (pyStr (.str "quay.io")) (pyStr (.str "kube"))
      = .success (.ok (.map
          [("Tags", .list [.str "1.2.0", .str "1.10.0", .str "1.9.0"])]))
    ∧ fetch_tags envThreeTags (.str "quay.io") (.str "kube") (.int 2) =
        ([.out "Fetching tags for kube from quay.io...",
          .invoke "quay.io" "kube",
          .out "Latest 2 tags for kube:",
          .out "1.10.0", .out "1.9.0", .out ""], none) :=
  ⟨rfl, by
    have h := truncates_to_max envThreeTags (.str "quay.io") (.str "kube")
      (.map [("Tags", .list [.str "1.2.0", .str "1.10.0", .str "1.9.0"])])
      ["1.2.0", "1.10.0", "1.9.0"] 2 rfl rfl (by decide) (by decide)
    exact h.trans (by decide)⟩

/-- C10: on a non-empty fetched tag list, `max = 0` prints the header
and the blank line with zero tags, and a negative `max = -k` prints
all sorted tags except the last `k` — the code resolves the
behaviour the specification leaves open via Python slicing. -/
theorem max_zero_and_negative_slice :
    ∀ (env : Env) (reg img doc : YVal) (ts : List String),
      env.skopeo (pyStr reg) (pyStr img) = .success (.ok doc) →
      doc.getItem "Tags" = .ok (.list (ts.map YVal.str)) →
      ts ≠ [] →
      (fetch_tags env reg img (.int 0) =
        ([.out (outFetching reg img), .invoke (pyStr reg) (pyStr img),
          .out (outHeader (.int 0) img), .out ""], none))
      ∧ (∀ k : Nat, 0 < k →
         fetch_tags env reg img (.int (-(k : Int))) =
           ([.out (outFetching reg img), .invoke (pyStr reg) (pyStr img),
             .out (outHeader (.int (-(k : Int))) img)]
             ++ ((sortS ts).take ((sortS ts).length - k)).map Ev.out
             ++ [.out ""], none)) := by
  intro env reg img doc ts h1 h2 h3
  constructor
  · have h := fetch_tags_list env reg img doc ts 0 h1 h2 h3
    rw [h]
    simp [pySliceTo]
  · intro k hk
    have h := fetch_tags_list env reg img doc ts (-(k : Int)) h1 h2 h3
    rw [h]
    have hneg : ¬ (0 : Int) ≤ -(k : Int) := by omega
    have hslice : pySliceTo (sortS ts) (-(k : Int))
        = (sortS ts).take ((sortS ts).length - k) := by
      simp [pySliceTo, hneg]
    rw [hslice]

/-- Witness for C10 at the three example tags with `max = 0` and
`max = -1`. -/
theorem max_zero_and_negative_slice_witness :
    (fetch_tags envThreeTags (.str "quay.io") (.str "kube") (.int 0) =
      ([.out "Fetching tags for kube from quay.io...",
        .invoke "quay.io" "kube",
        .out "Latest 0 tags for kube:", .out ""], none))
    ∧ (fetch_tags envThreeTags (.str "quay.io") (.str "kube") (.int (-1)) =
      ([.out "Fetching tags for kube from quay.io...",
        .invoke "quay.io" "kube",
        .out "Latest -1 tags for kube:",
        .out "1.10.0", .out "1.9.0", .out ""], none)) := by
  have h := max_zero_and_negative_slice envThreeTags (.str "quay.io")
    (.str "kube")
    (.map [("Tags", .list [.str "1.2.0", .str "1.10.0", .str "1.9.0"])])
    ["1.2.0", "1.10.0", "1.9.0"] rfl rfl (by decide)
  exact ⟨h.1.trans (by decide), (h.2 1 (by decide)).trans (by decide)⟩

end RemoteTagFetch
